import Mathlib

/-!
Shallow embedding of `RelSerializer` (package
`com.dremio.exec.planner.logical.serialization`), the Kryo-based engine that
serializes and deserializes query-plan graphs with decode-time injection of
environment-bound instances.

Translated from the source:
* `RelSerializer` (engine), `RelSerializer.SerializerContext`,
  `RelSerializer.Builder` and its `withInjection` / `setOutputBufferSize` /
  `build`, and the anonymous `SerializerFactory.makeSerializer` installed by
  `setup` are embedded from `RelSerializer.java`.
* `InjectionMapping`, `Injection`, `InjectingSerializer` and the category
  serializers are referenced by that file but their sources are not part of
  the sampled material; their behavior is modelled from the spec (sections
  4.1, 4.3, 4.4) and each such definition carries a doc comment saying so.

Java null is modelled with `Option`; Java exceptions
(`NullPointerException` from `Preconditions.checkNotNull`,
`IllegalArgumentException` from `Preconditions.checkArgument`, and the
ambiguous-injection failure) are modelled with `Except BuildError`.
-/

/-- A runtime type identifier (a Java class, identified by its name). -/
abbrev TypeId := String

/-- Payload values: a plan graph node. `prim` is a plain structural leaf,
`obj` an object of class `t` with a field list handled by the injecting
fallback serializer, `oper` an operator descriptor (encoded by canonical
name), `dty` a data-type descriptor (encoded structurally as
precision/scale), `plug` a storage-plugin handle (encoded by name). -/
inductive PValue : Type where
  | prim (n : Int)
  | obj (t : TypeId) (fields : List PValue)
  | oper (name : String)
  | dty (precision scale : Int)
  | plug (name : String)

/-- One injection entry: a TypeId bound to a pre-built instance
(`Injection.of(type, value)` in the source). -/
structure Injection : Type where
  typeId : TypeId
  instVal : PValue

/-- Errors raised during builder construction / `build()`:
`Preconditions.checkNotNull`, `Preconditions.checkArgument`, and the
duplicate-TypeId rejection of `InjectionMapping.of`. -/
inductive BuildError : Type where
  | nullPointer (msg : String)
  | illegalArgument
  | ambiguousInjection
deriving DecidableEq, Repr

/-- First-match lookup of a TypeId among injection entries. -/
def lookupInj : List Injection → TypeId → Option PValue
  | [], _ => none
  | i :: rest, t => if i.typeId = t then some i.instVal else lookupInj rest t

/-- True when two entries of the list share a TypeId. -/
def hasDupTypeId : List Injection → Bool
  | [] => false
  | i :: rest => rest.any (fun j => j.typeId == i.typeId) || hasDupTypeId rest

/-- Modelled from the spec (section 4.1): the `InjectionMapping` class is not
part of the sampled sources. An immutable map from TypeId to one pre-built
instance; `of(entries)` fails if two entries share the same TypeId
(ambiguous injection) rather than silently keeping only one of them. -/
structure InjectionMapping : Type where
  entries : List Injection

/-- Modelled from the spec (section 4.1): `InjectionMapping.of` rejects a
duplicated TypeId at construction time. -/
def InjectionMapping.of (injections : List Injection) :
    Except BuildError InjectionMapping :=
  if hasDupTypeId injections then .error .ambiguousInjection
  else .ok (InjectionMapping.mk injections)

/-- Kryo itself is an external collaborator; the embedding only needs its
identity for the null check in the Builder constructor. -/
structure Kryo : Type where
  unit : Unit
deriving DecidableEq, Repr

/-- `RelSerializer.SerializerContext`: environment references and the bounded
output buffer size (lines 151-180 of the source). -/
structure SerializerContext : Type where
  cluster : PValue
  catalog : PValue
  registry : PValue
  outputBufferSize : Int

/-- The engine state after `build()`: the finalized injection mapping and the
context (`RelSerializer` fields; the `Kryo` field carries no model state). -/
structure RelSerializer : Type where
  mapping : InjectionMapping
  context : SerializerContext

/-- `Builder.MAX_BUFFER_SIZE = 2 << 15` (line 188 of the source). -/
def MAX_BUFFER_SIZE : Int := 2 <<< 15

/-- `RelSerializer.Builder` state: the mutable injections list, the three
environment references given at construction, and the output buffer size
(default `MAX_BUFFER_SIZE`). -/
structure Builder : Type where
  injections : List Injection
  cluster : PValue
  catalog : PValue
  registry : PValue
  outputBufferSize : Int

/-- `Preconditions.checkNotNull(x, msg)`: fail with a `NullPointerException`
carrying `msg` when the reference is absent. -/
def checkNotNull (x : Option α) (msg : String) : Except BuildError α :=
  match x with
  | some v => .ok v
  | none => .error (.nullPointer msg)

/-- The `Builder` constructor (source lines 197-203): null-checks kryo,
cluster, catalog and registry in that order, then starts with an empty
injections list and the default buffer size. -/
def Builder.make (kryo : Option Kryo) (cluster catalog registry : Option PValue) :
    Except BuildError Builder := do
  let _ ← checkNotNull kryo "kryo is required"
  let c ← checkNotNull cluster "cluster is required"
  let cat ← checkNotNull catalog "catalog is required"
  let r ← checkNotNull registry "registry is required"
  .ok (Builder.mk [] c cat r MAX_BUFFER_SIZE)

/-- `Builder.withInjection(injection)` (source lines 209-212): append to the
mutable injections list. -/
def Builder.withInjection (b : Builder) (inj : Injection) : Builder :=
  Builder.mk (b.injections ++ [inj]) b.cluster b.catalog b.registry b.outputBufferSize

/-- `Builder.setOutputBufferSize(n)` (source lines 214-217):
`checkArgument(n > 0)` then store `n`. -/
def Builder.setOutputBufferSize (b : Builder) (n : Int) : Except BuildError Builder :=
  if 0 < n then .ok (Builder.mk b.injections b.cluster b.catalog b.registry n)
  else .error .illegalArgument

/-- The three TypeIds `build()` always injects. -/
def defaultInjections (b : Builder) : List Injection :=
  [Injection.mk "RelOptCluster" b.cluster,
   Injection.mk "CalciteCatalogReader" b.catalog,
   Injection.mk "StoragePluginRegistry" b.registry]

/-- `Builder.build()` (source lines 219-231): appends the three environment
injections to the builder-owned mutable list, finalizes the injection
mapping, caps the buffer size with `Math.min(outputBufferSize,
MAX_BUFFER_SIZE)`, constructs the context and the engine. The returned pair
carries the engine together with the post-call builder state, modelling the
in-place mutation of the `injections` list. -/
def Builder.build (b : Builder) : Except BuildError (RelSerializer × Builder) :=
  let b1 := ((b.withInjection (Injection.mk "RelOptCluster" b.cluster)).withInjection
      (Injection.mk "CalciteCatalogReader" b.catalog)).withInjection
      (Injection.mk "StoragePluginRegistry" b.registry)
  match InjectionMapping.of b1.injections with
  | .error e => .error e
  | .ok mapping =>
    let bufferSize := min b1.outputBufferSize MAX_BUFFER_SIZE
    let context := SerializerContext.mk b1.cluster b1.catalog b1.registry bufferSize
    .ok (RelSerializer.mk mapping context, b1)

/-- A queried runtime type as seen by `SerializerFactory.makeSerializer`: the
class name together with the outcome of each `isAssignableFrom` test against
the four category base types (`SqlOperator`, `RelDataType`, `StoragePlugin`,
`Writable`). -/
structure JType : Type where
  name : TypeId
  sqlOperatorAssignable : Bool
  relDataTypeAssignable : Bool
  storagePluginAssignable : Bool
  writableAssignable : Bool
deriving DecidableEq, Repr

/-- The encoding/decoding strategies the engine can return: the four category
serializers and the injecting fallback of `makeSerializer`, the three
exact-type serializers registered by `setup`, and `registeredSer` for a
member of the `ImmutableCollectionSerializers` / `RelTraitDefSerializers` /
`RelTraitSerializers` / `JavaSerializers` bundles (whose member classes are
outside the sampled sources). -/
inductive Strategy : Type where
  | sqlOperatorSer (typeName : TypeId)
  | relDataTypeSer (typeName : TypeId)
  | storagePluginSer
  | writableSer
  | injectingSer (typeName : TypeId)
  | relOptTableImplSer
  | relOptNamespaceTableSer
  | tableMetadataSer
  | registeredSer (name : String)
deriving DecidableEq, Repr

/-- The anonymous `SerializerFactory.makeSerializer` installed by
`RelSerializer.setup` (source lines 75-96): test the four category
predicates in order — `SqlOperator`, then `RelDataType`, then
`StoragePlugin`, then `Writable` — returning the first matching category
serializer, and fall back to `InjectingSerializer` when none match. -/
def makeSerializer (t : JType) : Strategy :=
  if t.sqlOperatorAssignable then .sqlOperatorSer t.name
  else if t.relDataTypeAssignable then .relDataTypeSer t.name
  else if t.storagePluginAssignable then .storagePluginSer
  else if t.writableAssignable then .writableSer
  else .injectingSer t.name

/-- First-match lookup of a TypeId among exact-type registrations. -/
def lookupReg : List (TypeId × Strategy) → TypeId → Option Strategy
  | [], _ => none
  | e :: rest, t => if e.1 = t then some e.2 else lookupReg rest t

/-- The exact-type registrations performed by `RelSerializer.setup` (source
lines 98-104): the four serializer bundles (whose member entries are passed
in, their classes being outside the sampled sources) followed by the three
`addDefaultSerializer` entries for `RelOptTableImpl`,
`RelOptNamespaceTable` and `TableMetadata`. -/
def setupRegistrations (immutableCollectionRegs relTraitDefRegs relTraitRegs javaRegs :
    List (TypeId × Strategy)) : List (TypeId × Strategy) :=
  immutableCollectionRegs ++ relTraitDefRegs ++ relTraitRegs ++ javaRegs ++
    [("RelOptTableImpl", .relOptTableImplSer),
     ("RelOptNamespaceTable", .relOptNamespaceTableSer),
     ("TableMetadata", .tableMetadataSer)]

/-- Modelled from the spec (section 4.2): the combination of the exact-type
registrations with the default serializer factory lives in the Kryo
framework, outside the sampled sources. Resolution first consults the
exact-TypeId registrations; only when none matches does the ordered
category-predicate factory `makeSerializer` run. -/
def resolveStrategy (registrations : List (TypeId × Strategy)) (t : JType) : Strategy :=
  match lookupReg registrations t.name with
  | some s => s
  | none => makeSerializer t

/-- A sequence of resolutions against one engine: the registrations table is
immutable after `setup`, so each query is answered from the same table. -/
def resolveSeq (registrations : List (TypeId × Strategy)) (queries : List JType) :
    List Strategy :=
  queries.map (resolveStrategy registrations)

/-- Wire-level tags. `injT` and `structT` are the two arms of the injecting
fallback serializer; the others mark the category serializers. -/
inductive WTag : Type where
  | primT
  | operT
  | dtyT
  | plugT
  | injT
  | structT
deriving DecidableEq, Repr

/-- Wire tokens produced by the encoders. -/
inductive Tok : Type where
  | tag (t : WTag)
  | int (n : Int)
  | str (s : String)
  | cnt (k : Nat)
deriving DecidableEq, Repr

/-- Decode-time failures (spec section 7): `missingInjection` is the
resolution (configuration-mismatch) error for an injected tag whose TypeId
has no entry in the decode-side injection mapping; `unknownOperator` and
`unknownPlugin` are the name-resolution failures of the category
serializers; `malformed` and `fuelExhausted` are structural decode errors. -/
inductive DecodeError : Type where
  | missingInjection (t : TypeId)
  | unknownOperator (name : String)
  | unknownPlugin (name : String)
  | malformed
  | fuelExhausted
deriving DecidableEq, Repr

/-- The decode-side environment consulted by the category serializers: the
names known to the operator catalog and to the storage-plugin registry. -/
structure DecodeEnv : Type where
  knownOps : List String
  knownPlugins : List String
deriving DecidableEq, Repr

mutual

/-- Modelled from the spec (sections 4.3 and 4.4): the per-value encoders
(`InjectingSerializer` for `obj`, the category serializers for the rest)
are outside the sampled sources. An `obj` whose TypeId is present in the
injection mapping is encoded as a bare injected marker — its state is never
written; otherwise it is encoded structurally, field by field. Operators
and plugins are encoded by name, data types by their structural
description, primitives by value. -/
def encodeV (m : List Injection) : PValue → List Tok
  | .prim n => [.tag .primT, .int n]
  | .oper name => [.tag .operT, .str name]
  | .dty p s => [.tag .dtyT, .int p, .int s]
  | .plug name => [.tag .plugT, .str name]
  | .obj t fs =>
    match lookupInj m t with
    | some _ => [.tag .injT, .str t]
    | none => .tag .structT :: .str t :: .cnt fs.length :: encodeL m fs

/-- Field-list encoding: concatenation of the field encodings. -/
def encodeL (m : List Injection) : List PValue → List Tok
  | [] => []
  | v :: vs => encodeV m v ++ encodeL m vs

end

mutual

/-- Modelled from the spec (sections 4.3 and 4.4): the per-value decoder.
An injected marker must resolve in the decode-side injection mapping and
yields the currently injected instance; a missing entry is a
configuration-mismatch error. A structural body is rebuilt field by field.
Operator and plugin names must resolve against the decode environment.
`fuel` bounds the recursion depth; every call site supplies enough fuel
for the value being decoded. -/
def decodeV (env : DecodeEnv) (m : List Injection) :
    Nat → List Tok → Except DecodeError (PValue × List Tok)
  | 0, _ => .error .fuelExhausted
  | _ + 1, .tag .primT :: .int n :: rest => .ok (.prim n, rest)
  | _ + 1, .tag .operT :: .str name :: rest =>
    if env.knownOps.contains name then .ok (.oper name, rest)
    else .error (.unknownOperator name)
  | _ + 1, .tag .dtyT :: .int p :: .int s :: rest => .ok (.dty p s, rest)
  | _ + 1, .tag .plugT :: .str name :: rest =>
    if env.knownPlugins.contains name then .ok (.plug name, rest)
    else .error (.unknownPlugin name)
  | _ + 1, .tag .injT :: .str t :: rest =>
    match lookupInj m t with
    | some v => .ok (v, rest)
    | none => .error (.missingInjection t)
  | fuel + 1, .tag .structT :: .str t :: .cnt k :: rest =>
    match decodeL env m fuel k rest with
    | .ok (fs, rest1) => .ok (.obj t fs, rest1)
    | .error e => .error e
  | _ + 1, _ => .error .malformed

/-- Decode `k` consecutive field values. -/
def decodeL (env : DecodeEnv) (m : List Injection) :
    Nat → Nat → List Tok → Except DecodeError (List PValue × List Tok)
  | _, 0, toks => .ok ([], toks)
  | 0, _ + 1, _ => .error .fuelExhausted
  | fuel + 1, k + 1, toks =>
    match decodeV env m fuel toks with
    | .ok (v, toks1) =>
      match decodeL env m fuel k toks1 with
      | .ok (vs, toks2) => .ok (v :: vs, toks2)
      | .error e => .error e
    | .error e => .error e

end

mutual

/-- The decode-side substitution the round-trip produces: every subtree whose
TypeId is present in the injection mapping is replaced by the instance
currently held there (not a structural copy of the original subtree); all
other structure is rebuilt unchanged. -/
def substV (m : List Injection) : PValue → PValue
  | .obj t fs =>
    match lookupInj m t with
    | some v => v
    | none => .obj t (substL m fs)
  | .prim n => .prim n
  | .oper name => .oper name
  | .dty p s => .dty p s
  | .plug name => .plug name

/-- Substitution over a field list. -/
def substL (m : List Injection) : List PValue → List PValue
  | [] => []
  | v :: vs => substV m v :: substL m vs

end

mutual

/-- The payload graphs the round-trip property quantifies over: plain
structural values, instances of types present in the injection mapping
(whose fields are never encoded), and operator/plugin names known to the
decode environment. -/
def wfV (env : DecodeEnv) (m : List Injection) : PValue → Bool
  | .prim _ => true
  | .oper name => env.knownOps.contains name
  | .dty _ _ => true
  | .plug name => env.knownPlugins.contains name
  | .obj t fs =>
    match lookupInj m t with
    | some _ => true
    | none => wfL env m fs

/-- Well-formedness of a field list. -/
def wfL (env : DecodeEnv) (m : List Injection) : List PValue → Bool
  | [] => true
  | v :: vs => wfV env m v && wfL env m vs

end

mutual

/-- Decode depth of a value: injected subtrees decode in one step, structural
subtrees need one step plus the depth of their fields. -/
def depthV (m : List Injection) : PValue → Nat
  | .obj t fs =>
    match lookupInj m t with
    | some _ => 1
    | none => depthL m fs + 1
  | _ => 1

/-- Decode depth of a field list: one step per field plus the depth of the
deepest field. -/
def depthL (m : List Injection) : List PValue → Nat
  | [] => 0
  | v :: vs => max (depthV m v) (depthL m vs) + 1

end

/-- The class of the `SerializationWrapper` envelope (source lines 132-146). -/
def wrapperTypeId : TypeId := "SerializationWrapper"

/-- `RelSerializer.serialize` (source lines 112-118): wrap the plan in the
`SerializationWrapper` envelope and encode it into the output buffer. -/
def RelSerializer.serialize (s : RelSerializer) (plan : PValue) : List Tok :=
  encodeV s.mapping.entries (.obj wrapperTypeId [plan])

/-- `RelSerializer.deserialize` (source lines 120-125): decode the envelope
through the same resolution path and unwrap the value. The fuel
`data.length + 1` dominates the decode depth of any stream the encoder can
produce. -/
def RelSerializer.deserialize (env : DecodeEnv) (s : RelSerializer) (data : List Tok) :
    Except DecodeError PValue :=
  match decodeV env s.mapping.entries (data.length + 1) data with
  | .ok (.obj t [v], _) => if t = wrapperTypeId then .ok v else .error .malformed
  | .ok _ => .error .malformed
  | .error e => .error e

/-- Concrete decode environment for the C1 witness. -/
def c1wEnv : DecodeEnv := DecodeEnv.mk ["PLUS"] ["hdfs"]

/-- Concrete engine for the C1 witness: the injection mapping currently
holds `obj "RelOptCluster" [prim 5]` for TypeId `"RelOptCluster"`. -/
def c1wSer : RelSerializer :=
  RelSerializer.mk
    (InjectionMapping.mk [Injection.mk "RelOptCluster" (.obj "RelOptCluster" [.prim 5])])
    (SerializerContext.mk (.prim 0) (.prim 0) (.prim 0) MAX_BUFFER_SIZE)

/-- Concrete payload for the C1 witness: its injected-category subtree
carries `prim 99`, different from the currently injected instance. -/
def c1wG : PValue :=
  .obj "Root"
    [.obj "RelOptCluster" [.prim 99], .prim 7, .oper "PLUS", .plug "hdfs", .dty 10 2]

/-- Concrete encode-side engine for the C4 witness, injecting TypeId `"X"`. -/
def c4wEnc : RelSerializer :=
  RelSerializer.mk (InjectionMapping.mk [Injection.mk "X" (.prim 1)])
    (SerializerContext.mk (.prim 0) (.prim 0) (.prim 0) MAX_BUFFER_SIZE)

/-- Concrete decode-side engine for the C4 witness, with no injection. -/
def c4wDec : RelSerializer :=
  RelSerializer.mk (InjectionMapping.mk [])
    (SerializerContext.mk (.prim 0) (.prim 0) (.prim 0) MAX_BUFFER_SIZE)

/-- Concrete builder for the C5 witness. -/
def c5wB : Builder := Builder.mk [] (.prim 1) (.prim 2) (.prim 3) MAX_BUFFER_SIZE

/-- Builder state after `setOutputBufferSize(200000)` in the C5 witness. -/
def c5wB1 : Builder := Builder.mk [] (.prim 1) (.prim 2) (.prim 3) 200000

/-- Engine produced by the C5 witness build: the stored buffer size is the
cap, not the oversized request. -/
def c5wSer : RelSerializer :=
  RelSerializer.mk
    (InjectionMapping.mk
      [Injection.mk "RelOptCluster" (.prim 1),
       Injection.mk "CalciteCatalogReader" (.prim 2),
       Injection.mk "StoragePluginRegistry" (.prim 3)])
    (SerializerContext.mk (.prim 1) (.prim 2) (.prim 3) MAX_BUFFER_SIZE)

/-- Builder state after the C5 witness build. -/
def c5wB2 : Builder :=
  Builder.mk
    [Injection.mk "RelOptCluster" (.prim 1),
     Injection.mk "CalciteCatalogReader" (.prim 2),
     Injection.mk "StoragePluginRegistry" (.prim 3)]
    (.prim 1) (.prim 2) (.prim 3) 200000

/-- Concrete builder for the first C6 conjunct. -/
def c6wB : Builder := Builder.mk [] (.prim 11) (.prim 12) (.prim 13) MAX_BUFFER_SIZE

/-- Engine produced by the C6 witness build. -/
def c6wSer : RelSerializer :=
  RelSerializer.mk
    (InjectionMapping.mk
      [Injection.mk "RelOptCluster" (.prim 11),
       Injection.mk "CalciteCatalogReader" (.prim 12),
       Injection.mk "StoragePluginRegistry" (.prim 13)])
    (SerializerContext.mk (.prim 11) (.prim 12) (.prim 13) MAX_BUFFER_SIZE)

/-- Builder state after the C6 witness build. -/
def c6wB2 : Builder :=
  Builder.mk
    [Injection.mk "RelOptCluster" (.prim 11),
     Injection.mk "CalciteCatalogReader" (.prim 12),
     Injection.mk "StoragePluginRegistry" (.prim 13)]
    (.prim 11) (.prim 12) (.prim 13) MAX_BUFFER_SIZE

/-- Builder whose caller-supplied injections already bind `"RelOptCluster"`,
for the second C6 conjunct. -/
def c6wBad : Builder :=
  Builder.mk [Injection.mk "RelOptCluster" (.prim 9)] (.prim 11) (.prim 12)
    (.prim 13) MAX_BUFFER_SIZE

/-- Concrete builder for the C10 witness. -/
def c10wB : Builder := Builder.mk [] (.prim 21) (.prim 22) (.prim 23) MAX_BUFFER_SIZE

/-- Engine produced by the first C10 witness build. -/
def c10wSer : RelSerializer :=
  RelSerializer.mk
    (InjectionMapping.mk
      [Injection.mk "RelOptCluster" (.prim 21),
       Injection.mk "CalciteCatalogReader" (.prim 22),
       Injection.mk "StoragePluginRegistry" (.prim 23)])
    (SerializerContext.mk (.prim 21) (.prim 22) (.prim 23) MAX_BUFFER_SIZE)

/-- Builder state after the first C10 witness build. -/
def c10wB2 : Builder :=
  Builder.mk
    [Injection.mk "RelOptCluster" (.prim 21),
     Injection.mk "CalciteCatalogReader" (.prim 22),
     Injection.mk "StoragePluginRegistry" (.prim 23)]
    (.prim 21) (.prim 22) (.prim 23) MAX_BUFFER_SIZE

/-- Every value encodes to at least one token. -/
theorem encodeV_length_pos (m : List Injection) (v : PValue) :
    0 < (encodeV m v).length := by
  cases v with
  | obj t fs =>
    cases hm : lookupInj m t <;> simp [encodeV, hm]
  | prim n => simp [encodeV]
  | oper name => simp [encodeV]
  | dty p s => simp [encodeV]
  | plug name => simp [encodeV]

mutual

/-- The decode depth of a value is dominated by its encoded length. -/
theorem depthV_lt_encodeV_length (m : List Injection) (v : PValue) :
    depthV m v < (encodeV m v).length := by
  cases v with
  | obj t fs =>
    cases hm : lookupInj m t with
    | some w => simp [depthV, encodeV, hm]
    | none =>
      have h := depthL_le_encodeL_length m fs
      simp only [depthV, encodeV, hm, List.length_cons]
      omega
  | prim n => simp [depthV, encodeV]
  | oper name => simp [depthV, encodeV]
  | dty p s => simp [depthV, encodeV]
  | plug name => simp [depthV, encodeV]

/-- The decode depth of a field list is dominated by its encoded length. -/
theorem depthL_le_encodeL_length (m : List Injection) (L : List PValue) :
    depthL m L ≤ (encodeL m L).length := by
  cases L with
  | nil => simp [depthL, encodeL]
  | cons v vs =>
    have hv := depthV_lt_encodeV_length m v
    have hvs := depthL_le_encodeL_length m vs
    have hpos := encodeV_length_pos m v
    simp only [depthL, encodeL, List.length_append]
    omega

end

/-- Round-trip core, proved by strong induction on the size of the value:
decoding an encoded value (or field list) with enough fuel yields its
decode-side substitution and leaves the trailing tokens untouched. -/
theorem roundtrip_main (env : DecodeEnv) (m : List Injection) :
    ∀ (n : Nat),
      (∀ v : PValue, sizeOf v ≤ n → ∀ (fuel : Nat) (rest : List Tok),
        wfV env m v = true → depthV m v < fuel →
        decodeV env m fuel (encodeV m v ++ rest) = .ok (substV m v, rest)) ∧
      (∀ L : List PValue, sizeOf L ≤ n → ∀ (fuel : Nat) (rest : List Tok),
        wfL env m L = true → depthL m L < fuel →
        decodeL env m fuel L.length (encodeL m L ++ rest) = .ok (substL m L, rest)) := by
  intro n
  induction n using Nat.strong_induction_on with
  | _ n ih =>
    constructor
    · intro v hsz fuel rest hwf hd
      cases fuel with
      | zero => exact absurd hd (Nat.not_lt_zero _)
      | succ f =>
        cases v with
        | prim k => simp [encodeV, decodeV, substV]
        | oper name =>
          have hk : name ∈ env.knownOps := by simpa [wfV] using hwf
          simp [encodeV, decodeV, substV, hk]
        | dty p sc => simp [encodeV, decodeV, substV]
        | plug name =>
          have hk : name ∈ env.knownPlugins := by simpa [wfV] using hwf
          simp [encodeV, decodeV, substV, hk]
        | obj t fs =>
          cases hm : lookupInj m t with
          | some w =>
            have henc : encodeV m (PValue.obj t fs) = [.tag .injT, .str t] := by
              simp [encodeV, hm]
            have hsub : substV m (PValue.obj t fs) = w := by
              simp [substV, hm]
            rw [henc, hsub]
            show (match lookupInj m t with
                  | some v => Except.ok (v, rest)
                  | none => Except.error (DecodeError.missingInjection t)) = .ok (w, rest)
            rw [hm]
          | none =>
            have hszfs : sizeOf fs < n := by
              have hspec : sizeOf (PValue.obj t fs) = 1 + sizeOf t + sizeOf fs := by
                simp
              omega
            have hwfL : wfL env m fs = true := by simpa [wfV, hm] using hwf
            have hdL : depthL m fs < f := by
              simp only [depthV, hm] at hd
              omega
            have hrec := (ih (sizeOf fs) hszfs).2 fs le_rfl f rest hwfL hdL
            have henc : encodeV m (PValue.obj t fs) =
                .tag .structT :: .str t :: .cnt fs.length :: encodeL m fs := by
              simp [encodeV, hm]
            have hsub : substV m (PValue.obj t fs) = .obj t (substL m fs) := by
              simp [substV, hm]
            rw [henc, hsub]
            show (match decodeL env m f fs.length (encodeL m fs ++ rest) with
                  | .ok (gs, rest1) => Except.ok (PValue.obj t gs, rest1)
                  | .error e => .error e) = .ok (.obj t (substL m fs), rest)
            rw [hrec]
    · intro L hsz fuel rest hwf hd
      cases L with
      | nil => simp [encodeL, decodeL, substL]
      | cons v vs =>
        cases fuel with
        | zero => exact absurd hd (Nat.not_lt_zero _)
        | succ f =>
          have hszv : sizeOf v < n := by
            have hspec : sizeOf (v :: vs) = 1 + sizeOf v + sizeOf vs := by simp
            omega
          have hszvs : sizeOf vs < n := by
            have hspec : sizeOf (v :: vs) = 1 + sizeOf v + sizeOf vs := by simp
            omega
          have hwfv : wfV env m v = true := by
            simp only [wfL, Bool.and_eq_true] at hwf
            exact hwf.1
          have hwfvs : wfL env m vs = true := by
            simp only [wfL, Bool.and_eq_true] at hwf
            exact hwf.2
          have hdv : depthV m v < f := by
            simp only [depthL] at hd
            omega
          have hdvs : depthL m vs < f := by
            simp only [depthL] at hd
            omega
          have h1 := (ih (sizeOf v) hszv).1 v le_rfl f (encodeL m vs ++ rest) hwfv hdv
          have h2 := (ih (sizeOf vs) hszvs).2 vs le_rfl f rest hwfvs hdvs
          have hassoc : encodeL m (v :: vs) ++ rest =
              encodeV m v ++ (encodeL m vs ++ rest) := by
            simp [encodeL, List.append_assoc]
          rw [hassoc]
          show (match decodeV env m f (encodeV m v ++ (encodeL m vs ++ rest)) with
                | .ok (w, toks1) =>
                  match decodeL env m f vs.length toks1 with
                  | .ok (ws, toks2) => Except.ok (w :: ws, toks2)
                  | .error e => .error e
                | .error e => .error e) = .ok (substL m (v :: vs), rest)
          rw [h1]
          show (match decodeL env m f vs.length (encodeL m vs ++ rest) with
                | .ok (ws, toks2) => Except.ok (substV m v :: ws, toks2)
                | .error e => .error e) = .ok (substL m (v :: vs), rest)
          rw [h2]
          rfl

/-- Decoding an encoded value with enough fuel yields its decode-side
substitution and leaves the trailing tokens untouched. -/
theorem decodeV_encodeV (env : DecodeEnv) (m : List Injection) (v : PValue)
    (fuel : Nat) (rest : List Tok) (hwf : wfV env m v = true)
    (hd : depthV m v < fuel) :
    decodeV env m fuel (encodeV m v ++ rest) = .ok (substV m v, rest) :=
  (roundtrip_main env m (sizeOf v)).1 v le_rfl fuel rest hwf hd

/-- C1: for every payload graph built only from plain structural values,
instances of TypeIds present in the injection mapping, and known
operator/data-type/plugin category values, `deserialize(serialize(G))` on
an engine returns a value structurally equal to `G`, except that every
injected-category subtree is replaced by the instance currently held in the
injection mapping (`substV`) rather than a structural copy of the original.
The side condition `hwrap` records that the envelope class itself carries
no injection. -/
theorem c1_serialize_deserialize_roundtrip (env : DecodeEnv) (s : RelSerializer)
    (G : PValue) (hwf : wfV env s.mapping.entries G = true)
    (hwrap : lookupInj s.mapping.entries wrapperTypeId = none) :
    RelSerializer.deserialize env s (RelSerializer.serialize s G) =
      .ok (substV s.mapping.entries G) := by
  have hwfW : wfV env s.mapping.entries (.obj wrapperTypeId [G]) = true := by
    simp [wfV, wfL, hwrap, hwf]
  have hdW : depthV s.mapping.entries (.obj wrapperTypeId [G]) <
      (encodeV s.mapping.entries (.obj wrapperTypeId [G])).length + 1 :=
    Nat.lt_succ_of_lt (depthV_lt_encodeV_length _ _)
  have hdec := decodeV_encodeV env s.mapping.entries (.obj wrapperTypeId [G])
    ((encodeV s.mapping.entries (.obj wrapperTypeId [G])).length + 1) [] hwfW hdW
  rw [List.append_nil] at hdec
  have hsubW : substV s.mapping.entries (.obj wrapperTypeId [G]) =
      .obj wrapperTypeId [substV s.mapping.entries G] := by
    simp [substV, substL, hwrap]
  rw [hsubW] at hdec
  unfold RelSerializer.deserialize RelSerializer.serialize
  rw [hdec]
  simp

/-- Decoding an injected marker whose TypeId is absent from the decode-side
mapping fails with the resolution error, at any fuel. -/
theorem decodeV_inj_missing (env : DecodeEnv) (m : List Injection) (fuel : Nat)
    (x : TypeId) (rest : List Tok) (hx : lookupInj m x = none) :
    decodeV env m (fuel + 1) (.tag .injT :: .str x :: rest) =
      .error (.missingInjection x) := by
  show (match lookupInj m x with
        | some v => Except.ok (v, rest)
        | none => Except.error (DecodeError.missingInjection x)) =
    Except.error (DecodeError.missingInjection x)
  rw [hx]

/-- A failing first element makes a one-element field-list decode fail. -/
theorem decodeL_one_error (env : DecodeEnv) (m : List Injection) (fuel : Nat)
    (toks : List Tok) (e : DecodeError)
    (h : decodeV env m fuel toks = .error e) :
    decodeL env m (fuel + 1) 1 toks = .error e := by
  show (match decodeV env m fuel toks with
        | .ok (v, toks1) =>
          match decodeL env m fuel 0 toks1 with
          | .ok (vs, toks2) => Except.ok (v :: vs, toks2)
          | .error e1 => Except.error e1
        | .error e1 => Except.error e1) = Except.error e
  rw [h]

/-- A failing field-list decode makes the enclosing structural decode fail. -/
theorem decodeV_struct_error (env : DecodeEnv) (m : List Injection) (fuel : Nat)
    (t : TypeId) (k : Nat) (rest : List Tok) (e : DecodeError)
    (h : decodeL env m fuel k rest = .error e) :
    decodeV env m (fuel + 1) (.tag .structT :: .str t :: .cnt k :: rest) =
      .error e := by
  show (match decodeL env m fuel k rest with
        | .ok (fs1, rest1) => Except.ok (PValue.obj t fs1, rest1)
        | .error e1 => Except.error e1) = Except.error e
  rw [h]

/-- A failing envelope decode makes `deserialize` fail with the same error. -/
theorem deserialize_error (env : DecodeEnv) (s : RelSerializer) (data : List Tok)
    (e : DecodeError)
    (h : decodeV env s.mapping.entries (data.length + 1) data = .error e) :
    RelSerializer.deserialize env s data = .error e := by
  unfold RelSerializer.deserialize
  rw [h]

/-- C4: bytes holding an injected marker for a type `X` that was present in
the encode-side injection mapping, deserialized by an engine whose mapping
has no entry for `X`, fail with the resolution (configuration-mismatch)
error `missingInjection X`; the decoder never substitutes a null or
default-constructed value. -/
theorem c4_missing_injection_fails (env : DecodeEnv) (sEnc sDec : RelSerializer)
    (x : TypeId) (fs : List PValue) (w : PValue)
    (hEnc : lookupInj sEnc.mapping.entries x = some w)
    (hDec : lookupInj sDec.mapping.entries x = none)
    (hWrapEnc : lookupInj sEnc.mapping.entries wrapperTypeId = none) :
    RelSerializer.deserialize env sDec (RelSerializer.serialize sEnc (.obj x fs)) =
      .error (.missingInjection x) := by
  have henc : RelSerializer.serialize sEnc (.obj x fs) =
      [.tag .structT, .str wrapperTypeId, .cnt 1, .tag .injT, .str x] := by
    unfold RelSerializer.serialize
    simp [encodeV, encodeL, hEnc, hWrapEnc]
  rw [henc]
  have h4 : decodeV env sDec.mapping.entries 4 (.tag .injT :: .str x :: []) =
      .error (.missingInjection x) :=
    decodeV_inj_missing env sDec.mapping.entries 3 x [] hDec
  have h5 : decodeL env sDec.mapping.entries 5 1 [.tag .injT, .str x] =
      .error (.missingInjection x) :=
    decodeL_one_error env sDec.mapping.entries 4 [.tag .injT, .str x] _ h4
  have h6 : decodeV env sDec.mapping.entries 6
      (.tag .structT :: .str wrapperTypeId :: .cnt 1 :: [.tag .injT, .str x]) =
      .error (.missingInjection x) :=
    decodeV_struct_error env sDec.mapping.entries 5 wrapperTypeId 1
      [.tag .injT, .str x] _ h5
  exact deserialize_error env sDec _ _ h6

/-- Characterization of `build()`: it appends the three environment
injections to the caller-supplied list; a duplicate TypeId in the combined
list makes it fail with the ambiguous-injection error, otherwise it returns
the engine over that list together with the min-capped buffer size, and the
builder state keeps the appended list. -/
theorem build_spec (b : Builder) :
    b.build =
      (if hasDupTypeId (b.injections ++ defaultInjections b) then
        .error .ambiguousInjection
      else
        .ok (RelSerializer.mk
          (InjectionMapping.mk (b.injections ++ defaultInjections b))
          (SerializerContext.mk b.cluster b.catalog b.registry
            (min b.outputBufferSize MAX_BUFFER_SIZE)),
          Builder.mk (b.injections ++ defaultInjections b) b.cluster b.catalog
            b.registry b.outputBufferSize)) := by
  unfold Builder.build Builder.withInjection InjectionMapping.of defaultInjections
  simp only [List.append_assoc, List.cons_append, List.nil_append]
  by_cases hdup :
      hasDupTypeId (b.injections ++
        [Injection.mk "RelOptCluster" b.cluster,
         Injection.mk "CalciteCatalogReader" b.catalog,
         Injection.mk "StoragePluginRegistry" b.registry]) <;>
    simp [hdup]

/-- An entry of the first list whose TypeId also appears in the second list
is a duplicate of the combined list. -/
theorem hasDup_append_of_mem (l1 l2 : List Injection) (i : Injection)
    (h1 : i ∈ l1) (h2 : l2.any (fun j => j.typeId == i.typeId) = true) :
    hasDupTypeId (l1 ++ l2) = true := by
  induction l1 with
  | nil => exact absurd h1 (List.not_mem_nil i)
  | cons a l1 ih =>
    rcases List.mem_cons.mp h1 with h | h
    · subst h
      have hany : (l1 ++ l2).any (fun j => j.typeId == i.typeId) = true := by
        rw [List.any_append]
        simp [h2]
      simp [hasDupTypeId, hany]
    · have hrec := ih h
      simp [hasDupTypeId, hrec]

/-- Two entries at distinct positions sharing a TypeId make the duplicate
check succeed. -/
theorem hasDup_of_getElem (l : List Injection) :
    ∀ (i j : Nat) (x y : Injection), i < j → l[i]? = some x → l[j]? = some y →
      x.typeId = y.typeId → hasDupTypeId l = true := by
  induction l with
  | nil =>
    intro i j x y hij hi hj hdup
    simp at hi
  | cons a rest ih =>
    intro i j x y hij hi hj hdup
    cases i with
    | zero =>
      cases j with
      | zero => omega
      | succ k =>
        have hax : a = x := by simpa using hi
        have hy : y ∈ rest := by
          have hk : rest[k]? = some y := by simpa using hj
          exact List.getElem?_mem hk
        have hany : rest.any (fun jj => jj.typeId == a.typeId) = true := by
          apply List.any_eq_true.mpr
          refine ⟨y, hy, ?_⟩
          simp [hax, hdup]
        simp [hasDupTypeId, hany]
    | succ i0 =>
      cases j with
      | zero => omega
      | succ k =>
        have hrec := ih i0 k x y (by omega) (by simpa using hi) (by simpa using hj) hdup
        simp [hasDupTypeId, hrec]

/-- C2: constructing an injection mapping from entries in which two entries
(at distinct positions) share the same TypeId fails at construction time
with the ambiguous-injection error — the constructor returns no mapping at
all, so neither entry silently overwrites the other and no serialize or
deserialize call on a resulting engine is possible. -/
theorem c2_duplicate_typeid_rejected (l : List Injection) (i j : Nat)
    (x y : Injection) (hi : l[i]? = some x) (hj : l[j]? = some y) (hne : i ≠ j)
    (hdup : x.typeId = y.typeId) :
    InjectionMapping.of l = .error .ambiguousInjection := by
  have hd : hasDupTypeId l = true := by
    rcases Nat.lt_or_ge i j with h | h
    · exact hasDup_of_getElem l i j x y h hi hj hdup
    · have hj_lt : j < i := by omega
      exact hasDup_of_getElem l j i y x hj_lt hj hi hdup.symm
  unfold InjectionMapping.of
  simp [hd]

/-- C2 witness: two entries sharing TypeId `"A"` at positions 0 and 2 are
rejected by `InjectionMapping.of`. -/
theorem c2_duplicate_typeid_rejected_witness :
    InjectionMapping.of
      [Injection.mk "A" (.prim 1), Injection.mk "B" (.prim 2),
       Injection.mk "A" (.prim 3)] = .error .ambiguousInjection :=
  c2_duplicate_typeid_rejected
    [Injection.mk "A" (.prim 1), Injection.mk "B" (.prim 2),
     Injection.mk "A" (.prim 3)]
    0 2 (Injection.mk "A" (.prim 1)) (Injection.mk "A" (.prim 3))
    rfl rfl (by decide) rfl

/-- C5: `setOutputBufferSize(n)` fails for every `n <= 0`; for `n > 0` it
succeeds, and the buffer size a subsequent successful `build()` stores in
the context is `min n MAX_BUFFER_SIZE` with `MAX_BUFFER_SIZE = 2 << 15`, so
the upfront buffer allocation of `serialize` (which allocates
`context.getOutputBufferSize()` bytes) never exceeds `MAX_BUFFER_SIZE`
regardless of the caller-supplied `n`. -/
theorem c5_buffer_size_capped (b : Builder) (n : Int) :
    (n ≤ 0 → b.setOutputBufferSize n = .error .illegalArgument) ∧
    (0 < n → ∀ b1 ser b2, b.setOutputBufferSize n = .ok b1 →
      b1.build = .ok (ser, b2) →
      ser.context.outputBufferSize = min n MAX_BUFFER_SIZE ∧
      ser.context.outputBufferSize ≤ MAX_BUFFER_SIZE) := by
  constructor
  · intro hn
    have hlt : ¬ (0 < n) := by omega
    unfold Builder.setOutputBufferSize
    simp [hlt]
  · intro hn b1 ser b2 hset hbuild
    unfold Builder.setOutputBufferSize at hset
    rw [if_pos hn] at hset
    have hb1 : b1 = Builder.mk b.injections b.cluster b.catalog b.registry n := by
      exact (Except.ok.injEq _ _).mp hset.symm
    subst hb1
    rw [build_spec] at hbuild
    by_cases hdup :
        hasDupTypeId
          ((Builder.mk b.injections b.cluster b.catalog b.registry n).injections ++
            defaultInjections (Builder.mk b.injections b.cluster b.catalog b.registry n))
    · rw [if_pos hdup] at hbuild
      exact absurd hbuild (by simp)
    · rw [if_neg hdup] at hbuild
      have hser := ((Except.ok.injEq _ _).mp hbuild.symm)
      have hser1 : ser =
          RelSerializer.mk
            (InjectionMapping.mk
              (b.injections ++
                defaultInjections (Builder.mk b.injections b.cluster b.catalog b.registry n)))
            (SerializerContext.mk b.cluster b.catalog b.registry
              (min n MAX_BUFFER_SIZE)) := by
        have := congrArg Prod.fst hser
        simpa using this
      subst hser1
      constructor
      · rfl
      · simp [min_le_right]

/-- C6: `build()` adds injections for `RelOptCluster` (environment),
`CalciteCatalogReader` (catalog resolver) and `StoragePluginRegistry`
(plugin registry) — bound to the instances given at Builder construction —
to the caller-supplied injections before finalizing the injection mapping;
and if the caller already supplied an injection for any of these three
TypeIds, `build()` fails with the ambiguous-injection error instead of
silently overriding either entry. -/
theorem c6_defaults_injected_and_conflicts_fail (b : Builder) :
    (∀ ser b2, b.build = .ok (ser, b2) →
      ser.mapping.entries =
        b.injections ++
          [Injection.mk "RelOptCluster" b.cluster,
           Injection.mk "CalciteCatalogReader" b.catalog,
           Injection.mk "StoragePluginRegistry" b.registry]) ∧
    (∀ inj, inj ∈ b.injections →
      (inj.typeId = "RelOptCluster" ∨ inj.typeId = "CalciteCatalogReader" ∨
        inj.typeId = "StoragePluginRegistry") →
      b.build = .error .ambiguousInjection) := by
  constructor
  · intro ser b2 hbuild
    rw [build_spec] at hbuild
    by_cases hdup : hasDupTypeId (b.injections ++ defaultInjections b)
    · rw [if_pos hdup] at hbuild
      exact absurd hbuild (by simp)
    · rw [if_neg hdup] at hbuild
      have hser := (Except.ok.injEq _ _).mp hbuild
      have hser1 := congrArg Prod.fst hser
      have hser2 : ser =
          RelSerializer.mk (InjectionMapping.mk (b.injections ++ defaultInjections b))
            (SerializerContext.mk b.cluster b.catalog b.registry
              (min b.outputBufferSize MAX_BUFFER_SIZE)) := by
        simpa using hser1.symm
      subst hser2
      simp [defaultInjections]
  · intro inj hmem hty
    have hany : (defaultInjections b).any (fun j => j.typeId == inj.typeId) = true := by
      rcases hty with h | h | h <;> simp [defaultInjections, h]
    have hdup : hasDupTypeId (b.injections ++ defaultInjections b) = true :=
      hasDup_append_of_mem b.injections (defaultInjections b) inj hmem hany
    rw [build_spec, if_pos hdup]

/-- C7: constructing a Builder with an absent (null) environment
(`cluster`), catalog resolver (`catalog`) or plugin registry (`registry`)
fails immediately with a `NullPointerException` from
`Preconditions.checkNotNull`, before any other Builder operation can run
(no Builder value is produced). -/
theorem c7_constructor_null_check (k : Option Kryo) (c cat r : Option PValue)
    (h : c = none ∨ cat = none ∨ r = none) :
    ∃ msg, Builder.make k c cat r = .error (.nullPointer msg) := by
  cases k <;> cases c <;> cases cat <;> cases r <;>
    first
    | exact ⟨"kryo is required", rfl⟩
    | exact ⟨"cluster is required", rfl⟩
    | exact ⟨"catalog is required", rfl⟩
    | exact ⟨"registry is required", rfl⟩
    | (rcases h with h | h | h <;> exact absurd h (by simp))

/-- C10: `build()` is not idempotent on the Builder: a successful `build()`
leaves the builder-owned mutable injections list equal to the caller
entries followed by the three environment injections, so it now holds
entries for those three TypeIds, and a second `build()` on the same
Builder appends them again, presenting duplicate TypeIds to the injection
mapping constructor, which rejects them. -/
theorem c10_build_not_idempotent (b : Builder) (ser : RelSerializer) (b2 : Builder)
    (h : b.build = .ok (ser, b2)) :
    b2.injections =
      b.injections ++
        [Injection.mk "RelOptCluster" b.cluster,
         Injection.mk "CalciteCatalogReader" b.catalog,
         Injection.mk "StoragePluginRegistry" b.registry] ∧
    b2.build = .error .ambiguousInjection := by
  rw [build_spec] at h
  by_cases hdup : hasDupTypeId (b.injections ++ defaultInjections b)
  · rw [if_pos hdup] at h
    exact absurd h (by simp)
  · rw [if_neg hdup] at h
    have hpair := (Except.ok.injEq _ _).mp h
    have hb2 : b2 =
        Builder.mk (b.injections ++ defaultInjections b) b.cluster b.catalog
          b.registry b.outputBufferSize := by
      have := congrArg Prod.snd hpair
      simpa using this.symm
    subst hb2
    constructor
    · simp [defaultInjections]
    · have hmem : Injection.mk "RelOptCluster" b.cluster ∈
          b.injections ++ defaultInjections b := by
        simp [defaultInjections]
      have hany :
          (defaultInjections
            (Builder.mk (b.injections ++ defaultInjections b) b.cluster b.catalog
              b.registry b.outputBufferSize)).any
            (fun j => j.typeId == (Injection.mk "RelOptCluster" b.cluster).typeId) =
            true := by
        simp [defaultInjections]
      have hdup2 := hasDup_append_of_mem _ _ _ hmem hany
      rw [build_spec, if_pos hdup2]

/-- C3: for every queried runtime type, the default strategy factory
evaluates the four category predicates in the fixed priority order —
is-operator-descriptor (`SqlOperator`), then is-data-type-descriptor
(`RelDataType`), then is-plugin-handle (`StoragePlugin`), then
is-framework-writable (`Writable`) — the first predicate that matches
determines the returned strategy, and if none match the injecting fallback
serializer is returned. -/
theorem c3_category_priority_order (t : JType) :
    (t.sqlOperatorAssignable = true →
      makeSerializer t = .sqlOperatorSer t.name) ∧
    (t.sqlOperatorAssignable = false → t.relDataTypeAssignable = true →
      makeSerializer t = .relDataTypeSer t.name) ∧
    (t.sqlOperatorAssignable = false → t.relDataTypeAssignable = false →
      t.storagePluginAssignable = true →
      makeSerializer t = .storagePluginSer) ∧
    (t.sqlOperatorAssignable = false → t.relDataTypeAssignable = false →
      t.storagePluginAssignable = false → t.writableAssignable = true →
      makeSerializer t = .writableSer) ∧
    (t.sqlOperatorAssignable = false → t.relDataTypeAssignable = false →
      t.storagePluginAssignable = false → t.writableAssignable = false →
      makeSerializer t = .injectingSer t.name) := by
  refine ⟨?_, ?_, ?_, ?_, ?_⟩ <;> intros <;> simp [makeSerializer, *]

/-- C8: a TypeId carried by the exact-type registrations made during
`setup` — the four bundle registrations and the entries for
`RelOptTableImpl`, `RelOptNamespaceTable` and `TableMetadata` — resolves
to its registered round-trip strategy by exact TypeId match, taking
precedence over the ordered category predicates (the flags of `t` are
unconstrained) and over the injecting fallback; and the three exact-type
entries are always present in the registrations produced by `setup`. -/
theorem c8_exact_type_precedence
    (ic rtd rt jv : List (TypeId × Strategy)) (t : JType) (s : Strategy)
    (hs : lookupReg (setupRegistrations ic rtd rt jv) t.name = some s) :
    resolveStrategy (setupRegistrations ic rtd rt jv) t = s ∧
    ("RelOptTableImpl", Strategy.relOptTableImplSer) ∈
      setupRegistrations ic rtd rt jv ∧
    ("RelOptNamespaceTable", Strategy.relOptNamespaceTableSer) ∈
      setupRegistrations ic rtd rt jv ∧
    ("TableMetadata", Strategy.tableMetadataSer) ∈
      setupRegistrations ic rtd rt jv := by
  refine ⟨?_, ?_, ?_, ?_⟩
  · unfold resolveStrategy
    rw [hs]
  · simp [setupRegistrations]
  · simp [setupRegistrations]
  · simp [setupRegistrations]

/-- C9: resolution is a deterministic function of the TypeId alone: in any
two call sequences against the same engine, the strategy resolved for a
given queried type is `resolveStrategy` of that type, independently of how
many or which resolutions happened before or after it. -/
theorem c9_resolution_deterministic (registrations : List (TypeId × Strategy))
    (qs1 qs2 : List JType) (i j : Nat) (t : JType)
    (h1 : qs1[i]? = some t) (h2 : qs2[j]? = some t) :
    (resolveSeq registrations qs1)[i]? = some (resolveStrategy registrations t) ∧
    (resolveSeq registrations qs1)[i]? = (resolveSeq registrations qs2)[j]? := by
  unfold resolveSeq
  constructor <;> simp [List.getElem?_map, h1, h2]

/-- C1 witness: round-tripping the concrete payload returns it with the
injected-category subtree replaced by the currently injected instance
(`prim 5`), not a structural copy of the original (`prim 99`). -/
theorem c1_serialize_deserialize_roundtrip_witness :
    wfV c1wEnv c1wSer.mapping.entries c1wG = true ∧
    lookupInj c1wSer.mapping.entries wrapperTypeId = none ∧
    RelSerializer.deserialize c1wEnv c1wSer (RelSerializer.serialize c1wSer c1wG) =
      .ok (.obj "Root"
        [.obj "RelOptCluster" [.prim 5], .prim 7, .oper "PLUS", .plug "hdfs",
         .dty 10 2]) :=
  ⟨rfl, rfl,
    Eq.trans (c1_serialize_deserialize_roundtrip c1wEnv c1wSer c1wG rfl rfl) rfl⟩

/-- C4 witness: bytes encoded with an injection for `"X"` fail to decode on
an engine lacking that injection, with the resolution error. -/
theorem c4_missing_injection_fails_witness :
    lookupInj c4wEnc.mapping.entries "X" = some (.prim 1) ∧
    lookupInj c4wDec.mapping.entries "X" = none ∧
    RelSerializer.deserialize (DecodeEnv.mk [] []) c4wDec
      (RelSerializer.serialize c4wEnc (.obj "X" [.prim 3])) =
      .error (.missingInjection "X") :=
  ⟨rfl, rfl,
    c4_missing_injection_fails (DecodeEnv.mk [] []) c4wEnc c4wDec "X" [.prim 3]
      (.prim 1) rfl rfl rfl⟩

/-- C3 witness: a type assignable only to `Writable` gets the writable
serializer through the fourth predicate. -/
theorem c3_category_priority_order_witness :
    makeSerializer (JType.mk "SomeWritable" false false false true) = .writableSer :=
  (c3_category_priority_order
    (JType.mk "SomeWritable" false false false true)).2.2.2.1 rfl rfl rfl rfl

/-- C5 witness: `setOutputBufferSize(-1)` fails, and after
`setOutputBufferSize(200000)` the built context stores
`min 200000 MAX_BUFFER_SIZE`, which does not exceed the cap. -/
theorem c5_buffer_size_capped_witness :
    c5wB.setOutputBufferSize (-1) = .error .illegalArgument ∧
    c5wSer.context.outputBufferSize = min 200000 MAX_BUFFER_SIZE ∧
    c5wSer.context.outputBufferSize ≤ MAX_BUFFER_SIZE :=
  ⟨(c5_buffer_size_capped c5wB (-1)).1 (by decide),
   ((c5_buffer_size_capped c5wB 200000).2 (by decide) c5wB1 c5wSer c5wB2 rfl rfl).1,
   ((c5_buffer_size_capped c5wB 200000).2 (by decide) c5wB1 c5wSer c5wB2 rfl rfl).2⟩

/-- C6 witness: a successful build finalizes the mapping over the caller
injections followed by the three environment injections, and a caller
injection for `"RelOptCluster"` makes build fail as ambiguous. -/
theorem c6_defaults_injected_and_conflicts_fail_witness :
    c6wSer.mapping.entries =
      [] ++
        [Injection.mk "RelOptCluster" (.prim 11),
         Injection.mk "CalciteCatalogReader" (.prim 12),
         Injection.mk "StoragePluginRegistry" (.prim 13)] ∧
    c6wBad.build = .error .ambiguousInjection :=
  ⟨(c6_defaults_injected_and_conflicts_fail c6wB).1 c6wSer c6wB2 rfl,
   (c6_defaults_injected_and_conflicts_fail c6wBad).2
     (Injection.mk "RelOptCluster" (.prim 9)) (by simp [c6wBad]) (Or.inl rfl)⟩

/-- C7 witness: an absent cluster fails the constructor with a
null-pointer precondition violation. -/
theorem c7_constructor_null_check_witness :
    ∃ msg, Builder.make (some (Kryo.mk ())) none (some (.prim 1))
      (some (.prim 2)) = .error (.nullPointer msg) :=
  c7_constructor_null_check (some (Kryo.mk ())) none (some (.prim 1))
    (some (.prim 2)) (Or.inl rfl)

/-- C8 witness: `"RelOptTableImpl"` resolves to its exact-type serializer
even for a queried type whose data-type category predicate holds, and the
three exact-type entries are present in the setup registrations. -/
theorem c8_exact_type_precedence_witness :
    resolveStrategy (setupRegistrations [] [] [] [])
      (JType.mk "RelOptTableImpl" false true false false) =
      Strategy.relOptTableImplSer ∧
    ("RelOptTableImpl", Strategy.relOptTableImplSer) ∈
      setupRegistrations [] [] [] [] ∧
    ("RelOptNamespaceTable", Strategy.relOptNamespaceTableSer) ∈
      setupRegistrations [] [] [] [] ∧
    ("TableMetadata", Strategy.tableMetadataSer) ∈
      setupRegistrations [] [] [] [] :=
  c8_exact_type_precedence [] [] [] []
    (JType.mk "RelOptTableImpl" false true false false)
    Strategy.relOptTableImplSer rfl

/-- C9 witness: the same queried type at position 1 of one call sequence and
position 0 of another resolves to the same strategy. -/
theorem c9_resolution_deterministic_witness :
    (resolveSeq []
        [JType.mk "A" true false false false,
         JType.mk "B" false false false false])[1]? =
      some (resolveStrategy [] (JType.mk "B" false false false false)) ∧
    (resolveSeq []
        [JType.mk "A" true false false false,
         JType.mk "B" false false false false])[1]? =
      (resolveSeq [] [JType.mk "B" false false false false])[0]? :=
  c9_resolution_deterministic []
    [JType.mk "A" true false false false, JType.mk "B" false false false false]
    [JType.mk "B" false false false false] 1 0
    (JType.mk "B" false false false false) rfl rfl

/-- C10 witness: after one successful build the builder list holds the three
environment injections, and a second build on the same builder fails with
the ambiguous-injection error. -/
theorem c10_build_not_idempotent_witness :
    c10wB2.injections =
      [] ++
        [Injection.mk "RelOptCluster" (.prim 21),
         Injection.mk "CalciteCatalogReader" (.prim 22),
         Injection.mk "StoragePluginRegistry" (.prim 23)] ∧
    c10wB2.build = .error .ambiguousInjection :=
  c10_build_not_idempotent c10wB c10wSer c10wB2 rfl
